import Mathlib

/-!
Verification of the Order-engine repository (order submission, pipeline
worker, and live status delivery) against its natural-language spec.

The embedding follows the TypeScript sources:
- `db.ts` (src/unnamed/part_000): `saveOrderStatus`, `getOrderById` over a
  keyed store of order records;
- the DB-integrated server (src/unnamed/part_001): the POST
  /api/order/execute handler, the GET /api/order/status websocket attach
  handler, the close handler, and the Redis message relay;
- `worker.ts` (src/src/worker.ts): the BullMQ job body and the on-failed
  listener, modelled as the list of side effects (publishes and durable
  writes) one job run produces, parameterized by the outcomes of the
  external quoting/execution capability.
-/

/-- The order lifecycle stages. The worker publishes the strings
`routing`, `building`, `submitted`, `confirmed`, `failed`; the server
writes `pending` at submission. -/
inductive Stage where
  | pending
  | routing
  | building
  | submitted
  | confirmed
  | failed
deriving DecidableEq

/-- Terminal stages per the websocket handler and the relay:
`confirmed` or `failed`. -/
def Stage.isTerminal : Stage → Bool
  | .confirmed => true
  | .failed => true
  | _ => false

/-- A row of the `orders` table (db.ts `initDatabase`): required columns
`token_in, token_out, amount, status`; nullable columns
`dex, executed_price, tx_hash, error_message`. Timestamps are omitted. -/
structure OrderRecord where
  tokenIn : String
  tokenOut : String
  amount : ℚ
  status : Stage
  dex : Option String
  executedPrice : Option ℚ
  txHash : Option String
  errorMessage : Option String
deriving DecidableEq

/-- The `data` argument of db.ts `saveOrderStatus`: the full field set
supplied on every call. -/
structure OrderData where
  tokenIn : String
  tokenOut : String
  amount : ℚ
  status : Stage
  dex : Option String
  executedPrice : Option ℚ
  txHash : Option String
  errorMessage : Option String
deriving DecidableEq

/-- The durable snapshot store, keyed by order id (the `orders` table). -/
abbrev Store := String → Option OrderRecord

/-- The store with no rows. -/
def emptyStore : Store := fun _ => none

/-- db.ts `saveOrderStatus`: INSERT .. ON CONFLICT (order_id) DO UPDATE.
A fresh insert sets every column from the supplied data; the conflict
branch updates `status, dex, executed_price, tx_hash, error_message`
(leaving `token_in, token_out, amount` as originally inserted). There is
no guard on the previously stored status. -/
def saveOrderStatus (store : Store) (orderId : String) (d : OrderData) : Store :=
  fun k =>
    if k = orderId then
      some (match store orderId with
        | none =>
            { tokenIn := d.tokenIn, tokenOut := d.tokenOut, amount := d.amount,
              status := d.status, dex := d.dex, executedPrice := d.executedPrice,
              txHash := d.txHash, errorMessage := d.errorMessage }
        | some old =>
            { tokenIn := old.tokenIn, tokenOut := old.tokenOut, amount := old.amount,
              status := d.status, dex := d.dex, executedPrice := d.executedPrice,
              txHash := d.txHash, errorMessage := d.errorMessage })
    else store k

/-- db.ts `getOrderById`: SELECT by primary key, `null` when absent. -/
def getOrderById (store : Store) (orderId : String) : Option OrderRecord :=
  store orderId

/-- A venue quote as consumed by the worker: the venue name and its
quoted price. -/
structure Quote where
  dex : String
  price : ℚ
deriving DecidableEq

/-- worker.ts routing decision:
`raydiumQuote.price > meteoraQuote.price ? raydiumQuote : meteoraQuote`. -/
def bestQuote (raydiumQuote meteoraQuote : Quote) : Quote :=
  if raydiumQuote.price > meteoraQuote.price then raydiumQuote else meteoraQuote

/-- Modelled from the spec: the execution capability's result payload
(venue chosen, executed price, receipt reference). The source of
`MockDexRouter` (services/DEXrouter) is not under src/; the spec describes
the receipt as `{receipt, price, venue}` and the websocket snapshot reads
back `tx_hash`, `executed_price`, `dex`. -/
structure SwapResult where
  dex : String
  executedPrice : ℚ
  txHash : String
deriving DecidableEq

/-- A message published on an order's Redis channel by the worker:
`{status, message?, data?, error?}`. -/
structure PubMsg where
  status : Stage
  message : Option String
  data : Option SwapResult
  error : Option String
deriving DecidableEq

/-- The per-order channel name used by both worker and server:
`order-updates:` followed by the order id. -/
def channelOf (orderId : String) : String :=
  "order-updates:" ++ orderId

/-- A side effect of the worker process: a Redis publish on a channel, or
a durable write to the orders store. -/
inductive Effect where
  | publish (channel : String) (msg : PubMsg)
  | dbWrite (orderId : String) (d : OrderData)
deriving DecidableEq

/-- Whether an effect is a durable write. -/
def Effect.isDbWrite : Effect → Bool
  | .dbWrite _ _ => true
  | .publish _ _ => false

/-- Whether an effect is a publish on the given channel. -/
def Effect.isPublishOn (c : String) : Effect → Bool
  | .publish c2 _ => c2 == c
  | .dbWrite _ _ => false

/-- Whether an effect is a publish carrying status `confirmed`. -/
def Effect.isConfirmedPublish : Effect → Bool
  | .publish _ u => decide (u.status = Stage.confirmed)
  | .dbWrite _ _ => false

/-- worker.ts on-failed listener: publishes `{status: failed, error: err.message}`
on the order's channel. -/
def onFailedPublish (orderId : String) (errMsg : String) : Effect :=
  Effect.publish (channelOf orderId) ⟨Stage.failed, none, none, some errMsg⟩

/-- worker.ts job body plus the on-failed listener, as the sequence of
side effects one job run produces. The quoting and execution capability
outcomes are parameters (their implementation is the external
`MockDexRouter`). The job publishes `routing`, awaits both quotes,
publishes `building` and `submitted`, runs the swap, and publishes
`confirmed` with the result; any raised error reaches the on-failed
listener, which publishes `failed` with the captured message. -/
def workerRun (orderId tokenIn tokenOut : String) (amount : ℚ)
    (quoteRaydium quoteMeteora : Except String Quote)
    (executeSwap : String → String → String → ℚ → ℚ → Except String SwapResult) :
    List Effect :=
  let channel := channelOf orderId
  let p1 := Effect.publish channel ⟨Stage.routing, some "Comparing DEX prices...", none, none⟩
  match quoteRaydium, quoteMeteora with
  | .error e, _ => [p1, onFailedPublish orderId e]
  | .ok _, .error e => [p1, onFailedPublish orderId e]
  | .ok rq, .ok mq =>
    let best := bestQuote rq mq
    let p2 := Effect.publish channel
      ⟨Stage.building, some ("Creating transaction for " ++ best.dex ++ "..."), none, none⟩
    let p3 := Effect.publish channel
      ⟨Stage.submitted, some "Transaction sent to network, awaiting confirmation.", none, none⟩
    match executeSwap best.dex tokenIn tokenOut amount best.price with
    | .error e => [p1, p2, p3, onFailedPublish orderId e]
    | .ok res => [p1, p2, p3, Effect.publish channel ⟨Stage.confirmed, none, some res, none⟩]

/-- The result the worker's job function settles with: a quoting error
rejects the awaited `Promise.all` and propagates out of the job, and an
execution error propagates out of the awaited `executeSwap`; otherwise
the job resolves with the swap result. An error outcome is what reaches
BullMQ's on-failed listener. -/
def jobOutcome (tokenIn tokenOut : String) (amount : ℚ)
    (quoteRaydium quoteMeteora : Except String Quote)
    (executeSwap : String → String → String → ℚ → ℚ → Except String SwapResult) :
    Except String SwapResult :=
  match quoteRaydium, quoteMeteora with
  | .error e, _ => .error e
  | .ok _, .error e => .error e
  | .ok rq, .ok mq =>
    executeSwap (bestQuote rq mq).dex tokenIn tokenOut amount (bestQuote rq mq).price

/-- A POST /api/order/execute request body: each field may be absent. -/
structure RequestBody where
  tokenIn : Option String
  tokenOut : Option String
  amount : Option ℚ
deriving DecidableEq

/-- JavaScript truthiness of an optional string: absent and the empty
string are falsy. -/
def strTruthy : Option String → Bool
  | none => false
  | some s => decide (s ≠ "")

/-- JavaScript truthiness of an optional number: absent and zero are
falsy. -/
def numTruthy : Option ℚ → Bool
  | none => false
  | some q => decide (q ≠ 0)

/-- The handler's guard: `!orderData.tokenIn || !orderData.tokenOut ||
!orderData.amount` rejects; this is the accepted case. -/
def validOrderData (b : RequestBody) : Bool :=
  strTruthy b.tokenIn && strTruthy b.tokenOut && numTruthy b.amount

/-- A work-queue item `{orderId, ...orderData}`. -/
structure QueueItem where
  orderId : String
  tokenIn : Option String
  tokenOut : Option String
  amount : Option ℚ
deriving DecidableEq

/-- A side effect of the submission handler: the attempted durable save
(with whether the underlying store call succeeded, since db.ts catches
and logs store errors instead of raising them), or the queue add. -/
inductive ServerEffect where
  | dbSave (ok : Bool) (orderId : String) (d : OrderData)
  | enqueue (item : QueueItem)
deriving DecidableEq

/-- Whether a server effect is the durable save attempt. -/
def ServerEffect.isDbSave : ServerEffect → Bool
  | .dbSave _ _ _ => true
  | .enqueue _ => false

/-- The observable outcome of one POST /api/order/execute call: the HTTP
status code, the returned order id (if any), the store and queue after the
call, and the ordered side effects performed. -/
structure SubmitOutcome where
  statusCode : Nat
  orderId : Option String
  store : Store
  queue : List QueueItem
  trace : List ServerEffect

/-- The POST /api/order/execute handler (DB-integrated server version):
generate an id, reject with 400 if any of tokenIn/tokenOut/amount is
falsy, otherwise call `saveOrderStatus` with the full pending record and
then add `{orderId, ...orderData}` to the queue and reply 201 with the id.
`dbOk` is whether the store call inside `saveOrderStatus` succeeds; since
`saveOrderStatus` catches store errors internally, the handler proceeds to
the enqueue and the 201 reply either way. -/
def executeOrderHandler (dbOk : Bool) (freshId : String) (body : RequestBody)
    (store : Store) (queue : List QueueItem) : SubmitOutcome :=
  if !(validOrderData body) then
    ⟨400, none, store, queue, []⟩
  else
    let d : OrderData :=
      ⟨body.tokenIn.getD "", body.tokenOut.getD "", body.amount.getD 0,
        Stage.pending, none, none, none, none⟩
    let store1 := if dbOk then saveOrderStatus store freshId d else store
    let item : QueueItem := ⟨freshId, body.tokenIn, body.tokenOut, body.amount⟩
    ⟨201, some freshId, store1, queue ++ [item],
      [ServerEffect.dbSave dbOk freshId d, ServerEffect.enqueue item]⟩

/-- The live-connection registry: order id to the connected socket
(JavaScript `Map<string, WebSocket>`; sockets are identified by number). -/
abbrev Registry := String → Option Nat

/-- The set of Redis channels the server's subscriber is subscribed to. -/
abbrev Subs := String → Bool

/-- `activeConnections.set(orderId, socket)`. -/
def regSet (r : Registry) (k : String) (v : Nat) : Registry :=
  fun x => if x = k then some v else r x

/-- `activeConnections.delete(orderId)`. -/
def regDelete (r : Registry) (k : String) : Registry :=
  fun x => if x = k then none else r x

/-- `redisSubscriber.subscribe(channel)`. -/
def subAdd (s : Subs) (c : String) : Subs :=
  fun x => if x = c then true else s x

/-- `redisSubscriber.unsubscribe(channel)`. -/
def subRemove (s : Subs) (c : String) : Subs :=
  fun x => if x = c then false else s x

/-- The server's connection-delivery state: the registry map and the
subscriber's channel set. -/
structure ConnState where
  reg : Registry
  subs : Subs

/-- The state with no registered connections and no subscriptions. -/
def emptyConn : ConnState := ⟨fun _ => none, fun _ => false⟩

/-- The snapshot payload built by the websocket handler for an
already-confirmed order: `{txHash, executedPrice, dex}` read back from the
stored row. -/
structure SnapshotData where
  txHash : Option String
  executedPrice : Option ℚ
  dex : Option String
deriving DecidableEq

/-- A message sent to a websocket client: the orderId-required rejection,
the terminal snapshot, the hardcoded initial status, or a relayed
`{orderId, ...update}` from Redis. -/
inductive ClientMsg where
  | errorOnly (error : String)
  | snapshot (orderId : String) (status : Stage) (message : String)
      (data : Option SnapshotData) (error : Option String)
  | initial (orderId : String) (status : Stage) (message : String)
  | forwarded (orderId : String) (update : PubMsg)
deriving DecidableEq

/-- The stage carried by a client message, when it carries one. -/
def ClientMsg.stageOf : ClientMsg → Option Stage
  | .errorOnly _ => none
  | .snapshot _ s _ _ _ => some s
  | .initial _ s _ => some s
  | .forwarded _ u => some u.status

/-- What one websocket attach did to the attaching socket: the messages
sent to it, whether it was closed, whether it was stored in
`activeConnections`, and whether the order's channel was subscribed. -/
structure AttachResult where
  sent : List ClientMsg
  closed : Bool
  registered : Bool
  subscribed : Bool
deriving DecidableEq

/-- The non-terminal branch of the attach handler: store the socket in
`activeConnections`, subscribe to `order-updates:orderId`, and send the
hardcoded initial message `{orderId, status: "pending", message: "Order
received and queued for processing."}`. -/
def liveAttach (socketId : Nat) (orderId : String) (st : ConnState) :
    AttachResult × ConnState :=
  (⟨[ClientMsg.initial orderId Stage.pending "Order received and queued for processing."],
      false, true, true⟩,
    ⟨regSet st.reg orderId socketId, subAdd st.subs (channelOf orderId)⟩)

/-- The GET /api/order/status websocket handler (DB-integrated server
version). A falsy orderId is rejected and the socket closed. Otherwise the
store is read: a stored terminal status (`confirmed` or `failed`) is sent
as a single snapshot message and the socket closed with no registration
and no subscription; any other lookup result goes to the live branch. -/
def statusAttach (socketId : Nat) (queryOrderId : Option String)
    (store : Store) (st : ConnState) : AttachResult × ConnState :=
  match queryOrderId with
  | none => (⟨[ClientMsg.errorOnly "orderId is required"], true, false, false⟩, st)
  | some orderId =>
    if orderId = "" then
      (⟨[ClientMsg.errorOnly "orderId is required"], true, false, false⟩, st)
    else
      match getOrderById store orderId with
      | some existing =>
        if existing.status.isTerminal then
          (⟨[ClientMsg.snapshot orderId existing.status
              (if existing.status = Stage.confirmed then "Order already completed."
                else "Order failed.")
              (if existing.status = Stage.confirmed then
                some ⟨existing.txHash, existing.executedPrice, existing.dex⟩
                else none)
              existing.errorMessage],
            true, false, false⟩, st)
        else
          liveAttach socketId orderId st
      | none => liveAttach socketId orderId st

/-- Whether the store lookup result sends the attach down the live
branch: no stored row, or a stored row in a non-terminal status. -/
def goesLive : Option OrderRecord → Bool
  | none => true
  | some r => !r.status.isTerminal

/-- The socket's close handler: delete the registry entry for the
captured orderId and unsubscribe the order's channel, unconditionally. -/
def onSocketClose (orderId : String) (st : ConnState) : ConnState :=
  ⟨regDelete st.reg orderId, subRemove st.subs (channelOf orderId)⟩

/-- Splitting a character list on `:` separators, the semantics of
JavaScript `channel.split(':')`: every maximal separator-free segment, in
order, with empty segments kept. -/
def splitOnColon (cs : List Char) : List (List Char) :=
  match cs with
  | [] => [[]]
  | c :: rest =>
    if c = ':' then [] :: splitOnColon rest
    else
      match splitOnColon rest with
      | [] => [[c]]
      | h :: t => (c :: h) :: t

/-- The relay's channel parsing: `channel.split(':')[1]`, with a falsy
result (missing or empty part) dropping the message. -/
def parseChannel (channel : String) : Option String :=
  match splitOnColon channel.toList with
  | _ :: second :: _ => if second.isEmpty then none else some ⟨second⟩
  | _ => none

/-- The `redisSubscriber.on('message')` body: parse the order id from the
channel, look up the socket in `activeConnections`, and if it exists and
is open, send `{orderId, ...update}` to it; a terminal status in the
update additionally schedules closing the socket. Returns the delivery
(socket id and message), and whether a close was scheduled. -/
def relayMessage (st : ConnState) (sockOpen : Nat → Bool) (channel : String)
    (update : PubMsg) : Option (Nat × ClientMsg) × Bool :=
  match parseChannel channel with
  | none => (none, false)
  | some orderId =>
    match st.reg orderId with
    | some sid =>
      if sockOpen sid then
        (some (sid, ClientMsg.forwarded orderId update), update.status.isTerminal)
      else (none, false)
    | none => (none, false)

/-- Delivery of one published event: Redis invokes the relay only on
channels the subscriber is subscribed to. -/
def deliverEvent (st : ConnState) (sockOpen : Nat → Bool) (channel : String)
    (update : PubMsg) : Option (Nat × ClientMsg) :=
  if st.subs channel then (relayMessage st sockOpen channel update).1 else none

/-- Delivery of a sequence of published events, with the connection state
held fixed (no attach, detach or close interleaved). -/
def deliverAll (st : ConnState) (sockOpen : Nat → Bool)
    (events : List (String × PubMsg)) : List (Nat × ClientMsg) :=
  events.filterMap (fun e => deliverEvent st sockOpen e.1 e.2)

/-- C8: at routing the worker consumes quotes from both venues and
`bestQuote` selects the quote with the numerically larger price (equal to
the maximum of the two); in particular with prices 99.04 and 97.71 it
selects the venue quoting 99.04, whichever side quoted it, and on exact
equality the selected price is still the (shared) numerically larger
price. -/
theorem c8_best_quote :
    (∀ r m : Quote, (bestQuote r m).price = max r.price m.price) ∧
    (∀ r m : Quote, bestQuote r m = r ∨ bestQuote r m = m) ∧
    bestQuote ⟨"Raydium", 9904/100⟩ ⟨"Meteora", 9771/100⟩ = ⟨"Raydium", 9904/100⟩ ∧
    bestQuote ⟨"Raydium", 9771/100⟩ ⟨"Meteora", 9904/100⟩ = ⟨"Meteora", 9904/100⟩ := by
  refine ⟨?_, ?_, ?_, ?_⟩
  · intro r m
    unfold bestQuote
    rcases lt_or_ge m.price r.price with h | h
    · rw [if_pos h, max_eq_left (le_of_lt h)]
    · rw [if_neg (not_lt.mpr h), max_eq_right h]
  · intro r m
    unfold bestQuote
    split
    · exact Or.inl rfl
    · exact Or.inr rfl
  · unfold bestQuote
    rw [if_pos (by norm_num)]
  · unfold bestQuote
    rw [if_neg (by norm_num)]

/-- C1 counterexample: on a fully successful job run, the worker's first
side effect is already a publish (of the `routing` status event) and the
run contains no durable write at all, so stage transitions are not
preceded by a durable upsert of the new stage. -/
theorem c1_counterexample :
    (workerRun "oid" "SOL" "USDC" 10 (Except.ok ⟨"Raydium", 99⟩) (Except.ok ⟨"Meteora", 97⟩)
        (fun _ _ _ _ p => Except.ok ⟨"Raydium", p, "tx"⟩)).head? =
      some (Effect.publish (channelOf "oid")
        ⟨Stage.routing, some "Comparing DEX prices...", none, none⟩) ∧
    (workerRun "oid" "SOL" "USDC" 10 (Except.ok ⟨"Raydium", 99⟩) (Except.ok ⟨"Meteora", 97⟩)
        (fun _ _ _ _ p => Except.ok ⟨"Raydium", p, "tx"⟩)).all
      (fun e => ! e.isDbWrite) = true := by
  constructor
  · rfl
  · decide

/-- C1 (amended): every stage transition executed by the worker performs
exactly one side effect, a publish of the status event on that order's
topic; the worker performs no durable writes for any stage, for any
quoting/execution outcome. -/
theorem c1_amended (orderId tokenIn tokenOut : String) (amount : ℚ)
    (quoteRaydium quoteMeteora : Except String Quote)
    (executeSwap : String → String → String → ℚ → ℚ → Except String SwapResult) :
    (workerRun orderId tokenIn tokenOut amount quoteRaydium quoteMeteora executeSwap).all
      (fun e => Effect.isPublishOn (channelOf orderId) e && ! e.isDbWrite) = true := by
  unfold workerRun
  rcases quoteRaydium with e | rq
  · simp [onFailedPublish, Effect.isPublishOn, Effect.isDbWrite]
  · rcases quoteMeteora with e | mq
    · simp [onFailedPublish, Effect.isPublishOn, Effect.isDbWrite]
    · rcases hE : executeSwap (bestQuote rq mq).dex tokenIn tokenOut amount
        (bestQuote rq mq).price with e | res <;>
        simp [hE, onFailedPublish, Effect.isPublishOn, Effect.isDbWrite]

/-- C7 counterexample: when the execution capability raises, the run's
terminal effect is the `failed` publish with the captured message, but the
run contains no durable write — the failed transition is delivered via
fan-out only, not via fan-out and durable write. -/
theorem c7_counterexample :
    (workerRun "oid7" "SOL" "USDC" 10 (Except.ok ⟨"Raydium", 99⟩) (Except.ok ⟨"Meteora", 97⟩)
        (fun _ _ _ _ _ => Except.error "boom")).getLast? =
      some (Effect.publish (channelOf "oid7") ⟨Stage.failed, none, none, some "boom"⟩) ∧
    (workerRun "oid7" "SOL" "USDC" 10 (Except.ok ⟨"Raydium", 99⟩) (Except.ok ⟨"Meteora", 97⟩)
        (fun _ _ _ _ _ => Except.error "boom")).all (fun e => ! e.isDbWrite) = true := by
  constructor
  · rfl
  · decide

/-- C7 (amended): for every job whose quoting or execution capability
raises an error, the error is caught (the run is a total trace, the job
does not propagate the fault) and routed to a terminal `failed` publish
carrying the captured message via the fan-out channel only; no
`confirmed` event is published and no durable write of any kind is
performed for that order. -/
theorem c7_amended (orderId tokenIn tokenOut : String) (amount : ℚ)
    (quoteRaydium quoteMeteora : Except String Quote) (msg : String)
    (executeSwap : String → String → String → ℚ → ℚ → Except String SwapResult)
    (h : jobOutcome tokenIn tokenOut amount quoteRaydium quoteMeteora executeSwap =
      Except.error msg) :
    (workerRun orderId tokenIn tokenOut amount quoteRaydium quoteMeteora
        executeSwap).getLast? = some (onFailedPublish orderId msg) ∧
    (workerRun orderId tokenIn tokenOut amount quoteRaydium quoteMeteora
        executeSwap).all
      (fun e => ! e.isConfirmedPublish && ! e.isDbWrite) = true := by
  unfold jobOutcome at h
  unfold workerRun
  rcases quoteRaydium with e | rq
  · simp only [Except.error.injEq] at h
    simp [h, onFailedPublish, Effect.isConfirmedPublish, Effect.isDbWrite]
  · rcases quoteMeteora with e | mq
    · simp only [Except.error.injEq] at h
      simp [h, onFailedPublish, Effect.isConfirmedPublish, Effect.isDbWrite]
    · simp only [] at h
      simp [h, onFailedPublish, Effect.isConfirmedPublish, Effect.isDbWrite]

/-- Witness for `c7_amended` at a concrete failing quote request (the
Raydium quote rejects, so the `Promise.all` rejection reaches the
on-failed listener). -/
theorem c7_witness :
    (workerRun "w7" "SOL" "USDC" 10 (Except.error "quote down") (Except.ok ⟨"Meteora", 97⟩)
        (fun _ _ _ _ p => Except.ok ⟨"Meteora", p, "tx"⟩)).getLast? =
      some (onFailedPublish "w7" "quote down") :=
  (c7_amended "w7" "SOL" "USDC" 10 (Except.error "quote down") (Except.ok ⟨"Meteora", 97⟩)
    "quote down" (fun _ _ _ _ p => Except.ok ⟨"Meteora", p, "tx"⟩) rfl).1

/-- C3 counterexample: `saveOrderStatus` lets a later write overwrite a
stored terminal record — after writing `confirmed` for an id, a subsequent
`routing` write for the same id replaces the stored status with `routing`
instead of being rejected or ignored. -/
theorem c3_counterexample :
    ((saveOrderStatus emptyStore "oid3"
        ⟨"SOL", "USDC", 10, Stage.confirmed, some "Raydium", some 99, some "tx", none⟩)
          "oid3").map OrderRecord.status = some Stage.confirmed ∧
    ((saveOrderStatus
        (saveOrderStatus emptyStore "oid3"
          ⟨"SOL", "USDC", 10, Stage.confirmed, some "Raydium", some 99, some "tx", none⟩)
        "oid3" ⟨"SOL", "USDC", 10, Stage.routing, none, none, none, none⟩)
          "oid3").map OrderRecord.status = some Stage.routing := by
  constructor
  · decide
  · decide

/-- C3 (amended): the store write is an unconditional last-writer-wins
upsert: after any `saveOrderStatus` call the stored status for that id is
the status just supplied, whatever was stored before — including a
terminal stage; no guard rejects or ignores post-terminal writes. -/
theorem c3_amended (store : Store) (orderId : String) (d : OrderData) :
    (saveOrderStatus store orderId d orderId).map OrderRecord.status = some d.status := by
  unfold saveOrderStatus
  rw [if_pos rfl]
  cases store orderId <;> rfl

/-- C2 counterexample: a submission supplying all three fields, with
`amount` supplied as 0, is rejected with 400: no orderId is returned and
no durable record is created, so supplying the fields does not guarantee a
pending record keyed by a returned id. -/
theorem c2_counterexample :
    (⟨some "SOL", some "USDC", some 0⟩ : RequestBody).tokenIn.isSome = true ∧
    (⟨some "SOL", some "USDC", some 0⟩ : RequestBody).tokenOut.isSome = true ∧
    (⟨some "SOL", some "USDC", some 0⟩ : RequestBody).amount.isSome = true ∧
    (executeOrderHandler true "oid2" ⟨some "SOL", some "USDC", some 0⟩ emptyStore
      []).statusCode = 400 ∧
    (executeOrderHandler true "oid2" ⟨some "SOL", some "USDC", some 0⟩ emptyStore
      []).orderId = none ∧
    (executeOrderHandler true "oid2" ⟨some "SOL", some "USDC", some 0⟩ emptyStore
      []).store "oid2" = none := by
  refine ⟨rfl, rfl, rfl, ?_, ?_, ?_⟩ <;> decide

/-- C2 (amended): for every submission the handler accepts (all three
fields present and truthy: non-empty token strings and a nonzero amount),
when the store call succeeds the handler returns 201 with the fresh id,
and the store at return holds a record keyed by that id with status
`pending`. -/
theorem c2_amended (freshId : String) (body : RequestBody) (store : Store)
    (queue : List QueueItem) (h : validOrderData body = true) :
    (executeOrderHandler true freshId body store queue).statusCode = 201 ∧
    (executeOrderHandler true freshId body store queue).orderId = some freshId ∧
    ((executeOrderHandler true freshId body store queue).store freshId).map
      OrderRecord.status = some Stage.pending := by
  unfold executeOrderHandler
  rw [h]
  refine ⟨rfl, rfl, ?_⟩
  show (saveOrderStatus store freshId _ freshId).map OrderRecord.status = some Stage.pending
  unfold saveOrderStatus
  rw [if_pos rfl]
  cases store freshId <;> rfl

/-- Witness for `c2_amended` at a concrete accepted submission. -/
theorem c2_witness :
    (executeOrderHandler true "w2" ⟨some "SOL", some "USDC", some 10⟩ emptyStore
      []).statusCode = 201 ∧
    (executeOrderHandler true "w2" ⟨some "SOL", some "USDC", some 10⟩ emptyStore
      []).orderId = some "w2" ∧
    ((executeOrderHandler true "w2" ⟨some "SOL", some "USDC", some 10⟩ emptyStore
      []).store "w2").map OrderRecord.status = some Stage.pending :=
  c2_amended "w2" ⟨some "SOL", some "USDC", some 10⟩ emptyStore [] (by decide)

/-- C6 counterexample: when the store call inside `saveOrderStatus` fails
(the error is caught and logged there, not raised), the submission still
enqueues the job and replies 201, leaving a queued job with no durable
record for its id. -/
theorem c6_counterexample :
    (executeOrderHandler false "oid6" ⟨some "SOL", some "USDC", some 10⟩ emptyStore
      []).statusCode = 201 ∧
    (executeOrderHandler false "oid6" ⟨some "SOL", some "USDC", some 10⟩ emptyStore
      []).queue = [⟨"oid6", some "SOL", some "USDC", some 10⟩] ∧
    (executeOrderHandler false "oid6" ⟨some "SOL", some "USDC", some 10⟩ emptyStore
      []).store "oid6" = none := by
  refine ⟨?_, ?_, ?_⟩ <;> decide

/-- C6 (amended): on an accepted submission the durable save attempt is
the first side effect and the enqueue the second (the write is attempted
before enqueuing), but `saveOrderStatus` catches store errors internally,
so a failed durable write does not fail the submission: the job is still
enqueued and 201 returned while the store is left unchanged. -/
theorem c6_amended (dbOk : Bool) (freshId : String) (body : RequestBody)
    (store : Store) (queue : List QueueItem) (h : validOrderData body = true) :
    (executeOrderHandler dbOk freshId body store queue).trace.map
      ServerEffect.isDbSave = [true, false] ∧
    (dbOk = false →
      (executeOrderHandler false freshId body store queue).store = store ∧
      (executeOrderHandler false freshId body store queue).statusCode = 201 ∧
      (executeOrderHandler false freshId body store queue).queue =
        queue ++ [⟨freshId, body.tokenIn, body.tokenOut, body.amount⟩]) := by
  unfold executeOrderHandler
  rw [h]
  exact ⟨rfl, fun _ => ⟨rfl, rfl, rfl⟩⟩

/-- Witness for `c6_amended` at a concrete submission with a failing
store. -/
theorem c6_witness :
    (executeOrderHandler false "w6" ⟨some "SOL", some "USDC", some 10⟩ emptyStore
      []).trace.map ServerEffect.isDbSave = [true, false] ∧
    (executeOrderHandler false "w6" ⟨some "SOL", some "USDC", some 10⟩ emptyStore
      []).store = emptyStore ∧
    (executeOrderHandler false "w6" ⟨some "SOL", some "USDC", some 10⟩ emptyStore
      []).statusCode = 201 :=
  ⟨(c6_amended false "w6" ⟨some "SOL", some "USDC", some 10⟩ emptyStore [] (by decide)).1,
    ((c6_amended false "w6" ⟨some "SOL", some "USDC", some 10⟩ emptyStore []
      (by decide)).2 rfl).1,
    ((c6_amended false "w6" ⟨some "SOL", some "USDC", some 10⟩ emptyStore []
      (by decide)).2 rfl).2.1⟩

/-- C9 counterexample: a request supplying all three fields, with
`tokenIn` supplied as the empty string, is rejected with 400 — the
handler's guard rejects falsy values, not only absent ones, so rejection
is not exactly characterized by a field being absent. -/
theorem c9_counterexample :
    (⟨some "", some "USDC", some 5⟩ : RequestBody).tokenIn.isSome = true ∧
    (⟨some "", some "USDC", some 5⟩ : RequestBody).tokenOut.isSome = true ∧
    (⟨some "", some "USDC", some 5⟩ : RequestBody).amount.isSome = true ∧
    (executeOrderHandler true "oid9" ⟨some "", some "USDC", some 5⟩ emptyStore
      []).statusCode = 400 := by
  refine ⟨rfl, rfl, rfl, ?_⟩
  decide

/-- C9 (amended): the submission endpoint rejects with 400 exactly when
at least one of tokenIn, tokenOut, amount is absent or falsy (an empty
token string or a zero amount), and otherwise returns 201 with
`{orderId}`. -/
theorem c9_amended (dbOk : Bool) (freshId : String) (body : RequestBody)
    (store : Store) (queue : List QueueItem) :
    (executeOrderHandler dbOk freshId body store queue).statusCode =
      (if validOrderData body then 201 else 400) ∧
    (executeOrderHandler dbOk freshId body store queue).orderId =
      (if validOrderData body then some freshId else none) := by
  unfold executeOrderHandler
  cases hv : validOrderData body <;> simp [hv]


/-- Helper: an attach for an order id whose store lookup is terminal
reduces to the serve-snapshot-and-close result with the state unchanged. -/
theorem statusAttach_terminal (socketId : Nat) (orderId : String) (store : Store)
    (st : ConnState) (rec : OrderRecord)
    (hrec : getOrderById store orderId = some rec)
    (hterm : rec.status.isTerminal = true) (hne : orderId ≠ "") :
    statusAttach socketId (some orderId) store st =
      (⟨[ClientMsg.snapshot orderId rec.status
          (if rec.status = Stage.confirmed then "Order already completed."
            else "Order failed.")
          (if rec.status = Stage.confirmed then
            some ⟨rec.txHash, rec.executedPrice, rec.dex⟩ else none)
          rec.errorMessage], true, false, false⟩, st) := by
  simp [statusAttach, hne, hrec, hterm]

/-- Helper: an attach for an order id whose store lookup is absent or
non-terminal reduces to the live branch. -/
theorem statusAttach_live (socketId : Nat) (orderId : String) (store : Store)
    (st : ConnState)
    (hlive : goesLive (getOrderById store orderId) = true) (hne : orderId ≠ "") :
    statusAttach socketId (some orderId) store st = liveAttach socketId orderId st := by
  unfold goesLive at hlive
  cases hg : getOrderById store orderId with
  | none => simp [statusAttach, hne, hg]
  | some r =>
    rw [hg] at hlive
    simp only [Bool.not_eq_true'] at hlive
    simp [statusAttach, hne, hg, hlive]

/-- Helper: with the order's channel subscribed, the socket registered
for the order and open, and the channel name parsing back to the order
id, one event published on that channel is forwarded to that socket. -/
theorem deliverEvent_forwarded (st : ConnState) (sockOpen : Nat → Bool)
    (orderId : String) (socketId : Nat) (u : PubMsg)
    (hsub : st.subs (channelOf orderId) = true)
    (hreg : st.reg orderId = some socketId)
    (hparse : parseChannel (channelOf orderId) = some orderId)
    (hopen : sockOpen socketId = true) :
    deliverEvent st sockOpen (channelOf orderId) u =
      some (socketId, ClientMsg.forwarded orderId u) := by
  simp [deliverEvent, relayMessage, hsub, hreg, hparse, hopen]

/-- Helper: under the same conditions, a sequence of events published on
the order's channel is relayed to the socket in order, none dropped. -/
theorem deliverAll_forwarded (st : ConnState) (sockOpen : Nat → Bool) (orderId : String)
    (socketId : Nat) (updates : List PubMsg)
    (hsub : st.subs (channelOf orderId) = true)
    (hreg : st.reg orderId = some socketId)
    (hparse : parseChannel (channelOf orderId) = some orderId)
    (hopen : sockOpen socketId = true) :
    deliverAll st sockOpen (updates.map (fun u => (channelOf orderId, u))) =
      updates.map (fun u => (socketId, ClientMsg.forwarded orderId u)) := by
  induction updates with
  | nil => rfl
  | cons u us ih =>
    simp only [List.map_cons, deliverAll, List.filterMap_cons] at ih ⊢
    rw [deliverEvent_forwarded st sockOpen orderId socketId u hsub hreg hparse hopen, ih]

/-- C4: a client attaching for an order whose durable record is terminal
receives exactly one message carrying that terminal stage, the socket is
closed, it is not stored in the registry and no channel subscription is
created (the connection state is unchanged), and — with no pre-existing
subscription for the order's channel — no later published event on that
channel is delivered through this state. -/
theorem c4_attach_terminal (socketId : Nat) (orderId : String) (store : Store)
    (st : ConnState) (rec : OrderRecord)
    (hrec : getOrderById store orderId = some rec)
    (hterm : rec.status.isTerminal = true) (hne : orderId ≠ "")
    (hsub : st.subs (channelOf orderId) = false) :
    (statusAttach socketId (some orderId) store st).1.sent.map ClientMsg.stageOf =
      [some rec.status] ∧
    (statusAttach socketId (some orderId) store st).1.closed = true ∧
    (statusAttach socketId (some orderId) store st).1.registered = false ∧
    (statusAttach socketId (some orderId) store st).1.subscribed = false ∧
    (statusAttach socketId (some orderId) store st).2 = st ∧
    (∀ sockOpen : Nat → Bool, ∀ update : PubMsg,
      deliverEvent (statusAttach socketId (some orderId) store st).2 sockOpen
        (channelOf orderId) update = none) := by
  rw [statusAttach_terminal socketId orderId store st rec hrec hterm hne]
  refine ⟨rfl, rfl, rfl, rfl, rfl, ?_⟩
  intro sockOpen update
  simp [deliverEvent, hsub]

/-- Witness for `c4_attach_terminal` at a concrete store holding a
confirmed record. -/
theorem c4_witness :
    (statusAttach 1 (some "w4")
        (fun k => if k = "w4" then
          some ⟨"SOL", "USDC", 10, Stage.confirmed, some "Raydium", some 99, some "tx", none⟩
          else none)
        emptyConn).1.sent.map ClientMsg.stageOf = [some Stage.confirmed] ∧
    (statusAttach 1 (some "w4")
        (fun k => if k = "w4" then
          some ⟨"SOL", "USDC", 10, Stage.confirmed, some "Raydium", some 99, some "tx", none⟩
          else none)
        emptyConn).1.closed = true :=
  ⟨(c4_attach_terminal 1 "w4"
      (fun k => if k = "w4" then
        some ⟨"SOL", "USDC", 10, Stage.confirmed, some "Raydium", some 99, some "tx", none⟩
        else none)
      emptyConn ⟨"SOL", "USDC", 10, Stage.confirmed, some "Raydium", some 99, some "tx", none⟩
      (by decide) rfl (by decide) rfl).1,
    (c4_attach_terminal 1 "w4"
      (fun k => if k = "w4" then
        some ⟨"SOL", "USDC", 10, Stage.confirmed, some "Raydium", some 99, some "tx", none⟩
        else none)
      emptyConn ⟨"SOL", "USDC", 10, Stage.confirmed, some "Raydium", some 99, some "tx", none⟩
      (by decide) rfl (by decide) rfl).2.1⟩

/-- C5 counterexample: attaching for an order whose stored record is in
the non-terminal stage `routing`, the first (and only) message the attach
sends carries the hardcoded stage `pending`, not the stored stage. -/
theorem c5_counterexample :
    ((getOrderById (fun k => if k = "oid5" then
        some ⟨"SOL", "USDC", 10, Stage.routing, none, none, none, none⟩ else none)
      "oid5").map OrderRecord.status = some Stage.routing) ∧
    ((statusAttach 1 (some "oid5") (fun k => if k = "oid5" then
        some ⟨"SOL", "USDC", 10, Stage.routing, none, none, none, none⟩ else none)
      emptyConn).1.sent.map ClientMsg.stageOf = [some Stage.pending]) ∧
    Stage.pending ≠ Stage.routing := by
  refine ⟨?_, ?_, ?_⟩ <;> decide

/-- C5 (amended): a client attaching for an order with no stored record
or a non-terminal stored record is registered and subscribed, is sent
exactly one initial message carrying the hardcoded stage `pending`
(regardless of the stored stage), and thereafter every event published on
that order's channel is relayed to it in order, none dropped, with a
terminal event additionally scheduling the channel close. -/
theorem c5_amended (socketId : Nat) (orderId : String) (store : Store) (st : ConnState)
    (updates : List PubMsg) (sockOpen : Nat → Bool)
    (hlive : goesLive (getOrderById store orderId) = true) (hne : orderId ≠ "")
    (hparse : parseChannel (channelOf orderId) = some orderId)
    (hopen : sockOpen socketId = true) :
    (statusAttach socketId (some orderId) store st).1.sent =
      [ClientMsg.initial orderId Stage.pending
        "Order received and queued for processing."] ∧
    (statusAttach socketId (some orderId) store st).1.registered = true ∧
    (statusAttach socketId (some orderId) store st).1.subscribed = true ∧
    (statusAttach socketId (some orderId) store st).1.closed = false ∧
    (deliverAll (statusAttach socketId (some orderId) store st).2 sockOpen
        (updates.map (fun u => (channelOf orderId, u))) =
      updates.map (fun u => (socketId, ClientMsg.forwarded orderId u))) ∧
    (∀ u : PubMsg,
      (relayMessage (statusAttach socketId (some orderId) store st).2 sockOpen
        (channelOf orderId) u).2 = u.status.isTerminal) := by
  rw [statusAttach_live socketId orderId store st hlive hne]
  unfold liveAttach
  refine ⟨rfl, rfl, rfl, rfl, ?_, ?_⟩
  · exact deliverAll_forwarded _ sockOpen orderId socketId updates
      (by simp [subAdd]) (by simp [regSet]) hparse hopen
  · intro u
    simp [relayMessage, hparse, regSet, hopen]

/-- Witness for `c5_amended`: a fresh order id with no stored record, one
subsequent published event, all sockets open. -/
theorem c5_witness :
    (statusAttach 7 (some "w5") emptyStore emptyConn).1.sent =
      [ClientMsg.initial "w5" Stage.pending
        "Order received and queued for processing."] ∧
    (deliverAll (statusAttach 7 (some "w5") emptyStore emptyConn).2 (fun _ => true)
        ([⟨Stage.routing, some "Comparing DEX prices...", none, none⟩].map
          (fun u => (channelOf "w5", u))) =
      [(7, ClientMsg.forwarded "w5"
        ⟨Stage.routing, some "Comparing DEX prices...", none, none⟩)]) :=
  ⟨(c5_amended 7 "w5" emptyStore emptyConn
      [⟨Stage.routing, some "Comparing DEX prices...", none, none⟩] (fun _ => true)
      rfl (by decide) (by decide) rfl).1,
    (c5_amended 7 "w5" emptyStore emptyConn
      [⟨Stage.routing, some "Comparing DEX prices...", none, none⟩] (fun _ => true)
      rfl (by decide) (by decide) rfl).2.2.2.2.1⟩

/-- C10: when a second client attaches for an order that already has a
live connection, the registry entry is overwritten with the newer socket;
if the superseded first socket then closes, its close handler deletes the
registry entry for the order and unsubscribes the order's channel, after
which no published event for that order is delivered to the
still-connected newer client. -/
theorem c10_supersede_close (sid1 sid2 : Nat) (orderId : String) (store : Store)
    (st : ConnState) (sockOpen : Nat → Bool)
    (hlive : goesLive (getOrderById store orderId) = true) (hne : orderId ≠ "") :
    ((statusAttach sid2 (some orderId) store
        (statusAttach sid1 (some orderId) store st).2).2.reg orderId = some sid2) ∧
    ((onSocketClose orderId (statusAttach sid2 (some orderId) store
        (statusAttach sid1 (some orderId) store st).2).2).reg orderId = none) ∧
    ((onSocketClose orderId (statusAttach sid2 (some orderId) store
        (statusAttach sid1 (some orderId) store st).2).2).subs
      (channelOf orderId) = false) ∧
    (∀ u : PubMsg,
      deliverEvent (onSocketClose orderId (statusAttach sid2 (some orderId) store
          (statusAttach sid1 (some orderId) store st).2).2) sockOpen
        (channelOf orderId) u = none) := by
  rw [statusAttach_live sid1 orderId store st hlive hne,
    statusAttach_live sid2 orderId store _ hlive hne]
  unfold liveAttach onSocketClose
  refine ⟨?_, ?_, ?_, ?_⟩
  · simp [regSet]
  · simp [regDelete]
  · simp [subRemove]
  · intro u
    simp [deliverEvent, subRemove]

/-- Witness for `c10_supersede_close`: two sockets attaching for a fresh
order id with no stored record. -/
theorem c10_witness :
    ((statusAttach 2 (some "wA") emptyStore
        (statusAttach 1 (some "wA") emptyStore emptyConn).2).2.reg "wA" = some 2) ∧
    ((onSocketClose "wA" (statusAttach 2 (some "wA") emptyStore
        (statusAttach 1 (some "wA") emptyStore emptyConn).2).2).reg "wA" = none) :=
  ⟨(c10_supersede_close 1 2 "wA" emptyStore emptyConn (fun _ => true) rfl (by decide)).1,
    (c10_supersede_close 1 2 "wA" emptyStore emptyConn (fun _ => true) rfl (by decide)).2.1⟩
